import Mathlib

/-!
Verification of the PyxelPlumber platformer core (`pyxel_plumber/app.py`)
against its natural-language specification.

The Python source is shallowly embedded below.  World coordinates, sizes and
velocities are Python numbers; every scenario treated here is integer-valued,
so they are modeled as exact integers (`ℤ`).  Python exceptions are modeled
explicitly (`PyError`), side effects as explicit state passing, and callback
invocations as boolean event flags in result records.
-/

/-! ## Constants (app.py, module header) -/

def TILE_SIZE : ℤ := 8

def SCREEN_WIDTH : ℤ := 256

def SCREEN_HEIGHT : ℤ := 240

def SCROLL_BORDER_X : ℤ := 240 * TILE_SIZE

def SCROLL_BORDER_Y : ℤ := 16 * TILE_SIZE

/-! ## AABB primitives (app.py `collide_aabb`, lines 170-173) -/

/-- Embedding of `collide_aabb(x1, y1, w1, h1, x2, y2, w2, h2)`:
`x1 < x2 + w2 and x1 + w1 > x2 and y1 < y2 + h2 and y1 + h1 > y2`. -/
def collide_aabb (x1 y1 w1 h1 x2 y2 w2 h2 : ℤ) : Bool :=
  decide (x1 < x2 + w2) && decide (x1 + w1 > x2) &&
  decide (y1 < y2 + h2) && decide (y1 + h1 > y2)

/-- An axis-aligned rectangle: the position/size fields shared by all
entities (`Entity.__init__`). -/
structure Rect where
  x : ℤ
  y : ℤ
  w : ℤ
  h : ℤ
deriving DecidableEq

/-- Overlap test between two rectangles, exactly as `Entity.collide_with`
calls `collide_aabb(self.x, self.y, self.w, self.h, other.x, ...)`. -/
def rectOverlap (a b : Rect) : Bool :=
  collide_aabb a.x a.y a.w a.h b.x b.y b.w b.h

/-! ## `Entity.collide_with` (app.py lines 355-365)

The method reads and writes `self.is_colliding` and may invoke the
`on_collision` / `on_collision_end` callbacks.  One call is embedded as a
function from the stored flag and the two rectangles to the new flag plus
event flags recording which callbacks were invoked. -/

/-- Result of one `collide_with` call: new stored `is_colliding` flag,
whether `on_collision` fired, whether `on_collision_end` fired, and the
return value. -/
structure CollideResult where
  is_colliding : Bool
  fired_on_collision : Bool
  fired_on_collision_end : Bool
  ret : Bool
deriving DecidableEq

/-- Embedding of `Entity.collide_with(self, other)` for a `self` whose
stored flag is `flag`:
if the rectangles overlap, invoke `on_collision`, set the flag, return True;
elif the flag is set, invoke `on_collision_end`, clear the flag; return False. -/
def collide_with_step (self other : Rect) (flag : Bool) : CollideResult :=
  if rectOverlap self other then
    ⟨true, true, false, true⟩
  else if flag then
    ⟨false, false, true, false⟩
  else
    ⟨flag, false, false, false⟩

/-- Number of `on_collision_end` invocations over a sequence of
`collide_with` calls against the listed partners, starting from stored flag
`flag` and threading the flag through. -/
def collideEndCount (self : Rect) : Bool → List Rect → ℕ
  | _, [] => 0
  | flag, o :: rest =>
    let r := collide_with_step self o flag
    (if r.fired_on_collision_end then 1 else 0) + collideEndCount self r.is_colliding rest

example : collide_aabb 0 0 8 8 4 0 8 8 = true := by decide
example : (collide_with_step ⟨0,0,8,8⟩ ⟨4,0,8,8⟩ true).fired_on_collision = true := by decide
example : collideEndCount ⟨0,0,8,8⟩ true [⟨100,100,8,8⟩, ⟨100,100,8,8⟩] = 1 := by decide

/-! ## Player state keys (app.py `PlayerStateKey`, lines 629-633) -/

/-- Embedding of the `PlayerStateKey` enum. -/
inductive PlayerStateKey where
  | GROUND
  | AIR
  | CLIMB
  | DEAD
deriving DecidableEq

/-! ## `pushback_entity` (app.py lines 176-255)

The moving entity `other` carries position, size, velocity, and — because the
resolver's top branch checks `isinstance(other, Player)` and then assigns
`other.state_key = PlayerStateKey.GROUND` — a player tag and a state key.
Assigning the state key runs the state machine setter; the player states
involved define no extra `on_exit`/`on_enter` behavior, so the assignment's
effect is exactly the key change (a no-op when the key is already `GROUND`).
The optional `on_hit*` callbacks are recorded as fired/not-fired flags. -/

/-- The moving entity `other` passed to `pushback_entity`. -/
structure MovState where
  x : ℤ
  y : ℤ
  w : ℤ
  h : ℤ
  dx : ℤ
  dy : ℤ
  isPlayer : Bool
  state_key : PlayerStateKey
deriving DecidableEq

/-- The keyword configuration of `pushback_entity`
(defaults in the source: pushback magnitudes 0, all four directional
pushback flags True). -/
structure PushConfig where
  horz_pushback : ℤ
  vert_pushback : ℤ
  pushback_x_right : Bool
  pushback_x_left : Bool
  pushback_y_up : Bool
  pushback_y_down : Bool
deriving DecidableEq

/-- Result of `pushback_entity`: the mutated `other` plus which of the
`on_hit_right` / `on_hit_left` / `on_hit_below` / `on_hit_above` / `on_hit`
callbacks fired (`any_hit` is `at_least_one_hit`, which gates `on_hit`). -/
structure PushResult where
  other : MovState
  hit_right : Bool
  hit_left : Bool
  hit_below : Bool
  hit_above : Bool
  any_hit : Bool
deriving DecidableEq

/-- `left_overlap = (other.x + other.w) - this.x` (app.py line 195). -/
def left_overlap (self : Rect) (o : MovState) : ℤ := (o.x + o.w) - self.x

/-- `right_overlap = (this.x + this.w) - other.x` (app.py line 196). -/
def right_overlap (self : Rect) (o : MovState) : ℤ := (self.x + self.w) - o.x

/-- `top_overlap = (other.y + other.h) - this.y` (app.py line 197). -/
def top_overlap (self : Rect) (o : MovState) : ℤ := (o.y + o.h) - self.y

/-- `bottom_overlap = (this.y + this.h) - other.y` (app.py line 198). -/
def bottom_overlap (self : Rect) (o : MovState) : ℤ := (self.y + self.h) - o.y

/-- `min_overlap = min(left_overlap, right_overlap, top_overlap, bottom_overlap)`
(app.py line 201). -/
def min_overlap (self : Rect) (o : MovState) : ℤ :=
  min (min (min (left_overlap self o) (right_overlap self o)) (top_overlap self o))
    (bottom_overlap self o)

/-- Embedding of the nested `apply_horz_pushback` (app.py lines 203-207);
it reads `other.dx` at call time (unchanged by the preceding `other.x`
assignment) and returns the new `other.dx`. -/
def apply_horz_pushback (c : PushConfig) (dx : ℤ) : ℤ :=
  if c.pushback_x_left = true ∧ dx > 0 then -c.horz_pushback
  else if c.pushback_x_right = true ∧ dx < 0 then c.horz_pushback
  else dx

/-- Embedding of the nested `apply_vert_pushback` (app.py lines 209-215). -/
def apply_vert_pushback (c : PushConfig) (dy : ℤ) : ℤ :=
  if c.pushback_y_up = true ∧ dy > 0 then -c.vert_pushback
  else if c.pushback_y_down = true ∧ dy < 0 then c.vert_pushback
  else dy

/-- Embedding of `pushback_entity(this, other, ...)` (app.py lines 176-255):
the four `elif` branches in source order (left, right, bottom, top), each
gated by the minimal-overlap test and the velocity sign of `other`; position
and velocity mutations only under the corresponding `pushback_x`/`pushback_y`
flag; the top branch additionally forces a Player into the `GROUND` state
(inside the `if pushback_y:` block, as in the source). -/
def pushback_entity (self : Rect) (o : MovState) (c : PushConfig) : PushResult :=
  let pushback_x := c.pushback_x_right || c.pushback_x_left
  let pushback_y := c.pushback_y_up || c.pushback_y_down
  if min_overlap self o = left_overlap self o ∧ o.dx > 0 then
    let o' := if pushback_x then
        { o with x := self.x - o.w, dx := apply_horz_pushback c o.dx }
      else o
    ⟨o', true, false, false, false, true⟩
  else if min_overlap self o = right_overlap self o ∧ o.dx < 0 then
    let o' := if pushback_x then
        { o with x := self.x + self.w, dx := apply_horz_pushback c o.dx }
      else o
    ⟨o', false, true, false, false, true⟩
  else if min_overlap self o = bottom_overlap self o ∧ o.dy < 0 then
    let o' := if pushback_y then
        { o with y := self.y + self.h, dy := apply_vert_pushback c o.dy }
      else o
    ⟨o', false, false, true, false, true⟩
  else if min_overlap self o = top_overlap self o ∧ o.dy > 0 then
    let o' := if pushback_y then
        let o2 := { o with y := self.y - o.h, dy := apply_vert_pushback c o.dy }
        if o2.isPlayer then { o2 with state_key := PlayerStateKey.GROUND } else o2
      else o
    ⟨o', false, false, false, true, true⟩
  else
    ⟨o, false, false, false, false, false⟩

def defaultPushConfig : PushConfig :=
  ⟨0, 0, true, true, true, true⟩

example :
    (pushback_entity ⟨0,0,8,8⟩ ⟨-6,0,8,8,1,0,false,PlayerStateKey.AIR⟩
      defaultPushConfig).other.x = -8 := by decide
example :
    (pushback_entity ⟨0,0,8,8⟩
      ⟨0,-6,8,8,0,1,true,PlayerStateKey.AIR⟩
      ⟨0, 0, true, true, false, false⟩).other.state_key = PlayerStateKey.AIR := by
  decide

/-! ## `cleanup_entities` (app.py lines 310-314)

The source iterates over the Python list with a `for` loop and calls
`entities.remove(entity)` on dead entries while iterating.  CPython's list
iterator advances a plain index each step, and `list.remove` deletes the
first element identical to its argument, so the embedding below follows the
index through the shrinking list exactly.  Entities are identified by an id
(Python object identity) plus their liveness flag. -/

/-- An entity as seen by the registry cleanup: its identity and its
`is_alive` flag. -/
structure Ent where
  id : ℕ
  is_alive : Bool
deriving DecidableEq

/-- `list.remove(e)`: delete the first occurrence of `e`. -/
def removeFirst (e : Ent) : List Ent → List Ent
  | [] => []
  | a :: as => if a = e then as else a :: removeFirst e as

/-- The `for entity in entities: if not entity.is_alive: entities.remove(entity)`
loop: the iterator index `i` advances by one per iteration over the current
list.  One fuel unit per iteration; the loop runs at most `entities.length`
iterations since the index only grows and the list only shrinks. -/
def cleanupLoop : ℕ → List Ent → ℕ → List Ent
  | 0, l, _ => l
  | fuel + 1, l, i =>
    if h : i < l.length then
      let e := l.get ⟨i, h⟩
      cleanupLoop fuel (if e.is_alive then l else removeFirst e l) (i + 1)
    else l

/-- Embedding of `cleanup_entities(entities)`. -/
def cleanup_entities (l : List Ent) : List Ent :=
  cleanupLoop l.length l 0

example : cleanup_entities [⟨0, false⟩, ⟨1, false⟩] = [⟨1, false⟩] := by decide
example : cleanup_entities [⟨0, false⟩, ⟨1, true⟩, ⟨2, false⟩] = [⟨1, true⟩] := by decide

/-! ## `Coin.on_collision` through `Entity.collide_with` (app.py 355-365, 444-463)

`Coin.on_collision(other)` increments the manager's coin counter and calls
`Coin.die`, which clears the coin's liveness flag and appends a sparkle
`DeathSprite` to `manager.particles`.  The manager state is threaded
explicitly; the particle list is tracked by its length (the appended
sprite's random velocity signs do not matter to the claims). -/

/-- A coin: rectangle, liveness flag, stored colliding flag. -/
structure CoinState where
  rect : Rect
  is_alive : Bool
  is_colliding : Bool
deriving DecidableEq

/-- The `GameManager` fields touched by the coin path: the coin counter and
the number of entities in `manager.particles`. -/
structure ManagerState where
  coins : ℕ
  particles : ℕ
deriving DecidableEq

/-- Embedding of `Coin.die` (app.py lines 449-463): clear `is_alive` and
append one sparkle `DeathSprite` to `manager.particles`. -/
def coin_die (c : CoinState) (m : ManagerState) : CoinState × ManagerState :=
  ({ c with is_alive := false }, { m with particles := m.particles + 1 })

/-- Embedding of `Coin.on_collision` (app.py lines 444-447): if the partner
is a `Player`, increment `manager.coins` and call `die`. -/
def coin_on_collision (c : CoinState) (m : ManagerState) (other_is_player : Bool) :
    CoinState × ManagerState :=
  if other_is_player then
    coin_die c { m with coins := m.coins + 1 }
  else (c, m)

/-- `Entity.collide_with` specialized to a `Coin` colliding with the Player
rectangle: on overlap, run `Coin.on_collision` then set the stored colliding
flag; otherwise, if the flag is set, run the (default, no-op)
`on_collision_end` and clear it. -/
def coin_collide_with (c : CoinState) (m : ManagerState) (player : Rect) :
    CoinState × ManagerState :=
  if rectOverlap c.rect player then
    let cm := coin_on_collision c m true
    ({ cm.1 with is_colliding := true }, cm.2)
  else if c.is_colliding then
    ({ c with is_colliding := false }, m)
  else (c, m)

example :
    (coin_collide_with ⟨⟨0,0,8,8⟩, false, false⟩ ⟨0, 0⟩ ⟨4,0,6,8⟩).2.coins = 1 := by
  decide

/-! ## Tile-grid checks (app.py lines 138-151, 279-297)

`get_tile` queries the external tilemap and `is_solid_tile` classifies the
returned tile id; their composition is a function from tile coordinates to
solidity, which the embedding takes as a parameter `solid`.
`is_tile_at_world_coord_solid(x, y)` converts world coordinates with
`int(x) // TILE_SIZE` — Python `int()` truncates toward zero (the identity on
integers) and `//` is floor division. -/

/-- Embedding of `is_tile_at_world_coord_solid(x, y)` over an abstract
solidity map `solid : tile_x → tile_y → Bool`. -/
def is_tile_at_world_coord_solid (solid : ℤ → ℤ → Bool) (x y : ℤ) : Bool :=
  solid (Int.fdiv x TILE_SIZE) (Int.fdiv y TILE_SIZE)

/-- Embedding of `check_vertical_tile_collision(x, y, dy, w, h)`
(app.py lines 279-297): moving down samples the two bottom corners at
`(x, y + h)` and `(x + w, y + h)`; moving up samples the two top corners at
`(x, y)` and `(x + w, y)`; otherwise no collision. -/
def check_vertical_tile_collision (solid : ℤ → ℤ → Bool) (x y dy w h : ℤ) : Bool :=
  if dy > 0 then
    is_tile_at_world_coord_solid solid x (y + h) ||
    is_tile_at_world_coord_solid solid (x + w) (y + h)
  else if dy < 0 then
    is_tile_at_world_coord_solid solid x y ||
    is_tile_at_world_coord_solid solid (x + w) y
  else false

/-- The tile world of the spec's vertical-check scenario: the only solid
tiles lie on grid row 3 (world y 24-31), in every column. -/
def onlyRow3Solid : ℤ → ℤ → Bool := fun _ r => decide (r = 3)

example : check_vertical_tile_collision onlyRow3Solid 0 16 1 6 8 = true := by decide
example : check_vertical_tile_collision onlyRow3Solid 0 15 1 6 8 = false := by decide

/-! ## `Camera.update` (app.py lines 971-978) -/

/-- The camera: origin, viewport size, target offset, and an optional target
position (the followed entity's `x`, `y`). -/
structure CameraState where
  x : ℤ
  y : ℤ
  w : ℤ
  h : ℤ
  xoff : ℤ
  yoff : ℤ
  target : Option (ℤ × ℤ)
deriving DecidableEq

/-- Embedding of `Camera.update` (app.py lines 971-978): return unchanged on
a null target; otherwise
`x = min(SCROLL_BORDER_X - w, max(0, target.x + xoff))`, then
`y = min(0, target.y + yoff)` followed by
`y = min(SCROLL_BORDER_Y - h, max(0, y))`. -/
def camera_update (c : CameraState) : CameraState :=
  match c.target with
  | none => c
  | some (tx, ty) =>
    let x1 := tx + c.xoff
    let x2 := min (SCROLL_BORDER_X - c.w) (max 0 x1)
    let y1 := min 0 (ty + c.yoff)
    let y2 := min (SCROLL_BORDER_Y - c.h) (max 0 y1)
    { c with x := x2, y := y2 }

example :
    (camera_update ⟨0, 0, 256, 240, -128, -120, some (100, 50)⟩).y = -112 := by decide

/-! ## `StateMachine` (app.py lines 603-626)

The state map is a key-to-state dictionary, embedded as an association list
with unique keys; `state` caches the current `State` object.  The hook
invocations (`on_exit` on the old state, `on_enter` on the new) are recorded
as an event list.  A raised exception is modeled as a `PyError` value next to
the (then unmodified) machine. -/

inductive PyError where
  | valueError
  | attributeError
deriving DecidableEq

/-- The hooks a `state_key` assignment runs, tagged with the key of the
state they are called on. -/
inductive Hook (κ : Type) where
  | on_exit (k : κ)
  | on_enter (k : κ)
deriving DecidableEq

/-- A `StateMachine` over key type `κ` and state-object type `σ`. -/
structure StateMachine (κ σ : Type) where
  state_map : List (κ × σ)
  cur_key : κ
  state : σ
deriving DecidableEq

/-- Dictionary lookup on the association list (`self.state_map[key]` /
`key in self.state_map`). -/
def lookupKey [DecidableEq κ] : List (κ × σ) → κ → Option σ
  | [], _ => none
  | (a, s) :: rest, k => if a = k then some s else lookupKey rest k

/-- Embedding of the `state_key` setter (app.py lines 617-626): raise
`ValueError` if the key is not in the map (machine unchanged); return with no
hooks if the key equals the current key; otherwise run `on_exit` on the old
state, install the new key and state, and run `on_enter` on the new state. -/
def set_state_key [DecidableEq κ] (m : StateMachine κ σ) (k : κ) :
    StateMachine κ σ × Option PyError × List (Hook κ) :=
  match lookupKey m.state_map k with
  | none => (m, some PyError.valueError, [])
  | some st =>
    if m.cur_key = k then (m, none, [])
    else ({ m with cur_key := k, state := st }, none,
      [Hook.on_exit m.cur_key, Hook.on_enter k])

/-- Embedding of the `state_key` property getter (app.py lines 613-615):
`raise AttributeError("State key is read-only")`, unconditionally. -/
def state_key_get (_ : StateMachine κ σ) : Except PyError κ :=
  Except.error PyError.attributeError

example :
    set_state_key (⟨[(0, 10), (1, 11)], 0, 10⟩ : StateMachine ℕ ℕ) 1 =
      (⟨[(0, 10), (1, 11)], 1, 11⟩, none, [Hook.on_exit 0, Hook.on_enter 1]) := by
  decide

/-! ## Theorems -/

/-- Helper: once the stored colliding flag is clear, a run of non-overlapping
`collide_with` calls never fires `on_collision_end`. -/
theorem collideEndCount_eq_zero (self : Rect) :
    ∀ rest : List Rect, (∀ r ∈ rest, rectOverlap self r = false) →
      collideEndCount self false rest = 0 := by
  intro rest
  induction rest with
  | nil => intro _; rfl
  | cons o rest ih =>
    intro hall
    have ho : rectOverlap self o = false := hall o (List.mem_cons_self o rest)
    simp only [collideEndCount, collide_with_step, ho, Bool.false_eq_true, if_false,
      if_neg (Bool.false_ne_true), Nat.zero_add]
    exact ih fun r hr => hall r (List.mem_cons_of_mem o hr)

/-- C1 counterexample: for the overlapping pair A = (0,0,8,8), B = (4,0,8,8),
a first `collide_with` call sets the stored colliding flag, and a second call
on the same still-overlapping pair invokes `on_collision` again even though
the flag is already set — refuting the claim that `on_collision` is invoked
only on a not-colliding-to-colliding transition. -/
theorem collide_with_refires_while_flag_set :
    (collide_with_step ⟨0,0,8,8⟩ ⟨4,0,8,8⟩ false).is_colliding = true ∧
    (collide_with_step ⟨0,0,8,8⟩ ⟨4,0,8,8⟩ true).fired_on_collision = true := by
  decide

/-- C1 (amended): on every `collide_with` call, `on_collision` fires exactly
when the rectangles overlap (regardless of the stored colliding flag);
`on_collision_end` fires exactly when the stored flag is set and the
rectangles no longer overlap, and the stored flag is updated to the current
overlap; in particular for non-overlapping rectangles `on_collision` never
fires, and after an overlap the flag is set and a subsequent run of
non-overlapping calls fires `on_collision_end` exactly once. -/
theorem collide_with_transition_spec (self : Rect) :
    (∀ (flag : Bool) (o : Rect),
      (collide_with_step self o flag).fired_on_collision = rectOverlap self o ∧
      (collide_with_step self o flag).fired_on_collision_end
        = (flag && !(rectOverlap self o)) ∧
      (collide_with_step self o flag).is_colliding = rectOverlap self o) ∧
    (∀ rest : List Rect, rest ≠ [] → (∀ r ∈ rest, rectOverlap self r = false) →
      collideEndCount self true rest = 1) := by
  constructor
  · intro flag o
    cases hov : rectOverlap self o <;> cases flag <;>
      simp [collide_with_step, hov]
  · intro rest hne hall
    match rest with
    | [] => exact absurd rfl hne
    | o :: rest' =>
      have ho : rectOverlap self o = false := hall o (List.mem_cons_self o rest')
      have hstep : collide_with_step self o true = ⟨false, false, true, false⟩ := by
        simp [collide_with_step, ho]
      show (if (collide_with_step self o true).fired_on_collision_end = true then 1 else 0)
          + collideEndCount self (collide_with_step self o true).is_colliding rest' = 1
      rw [hstep]
      show 1 + collideEndCount self false rest' = 1
      rw [collideEndCount_eq_zero self rest'
        (fun r hr => hall r (List.mem_cons_of_mem o hr))]

/-- C1 witness: instantiating the amended theorem at A = (0,0,8,8), starting
from a set colliding flag, with one non-overlapping partner. -/
theorem collide_with_transition_spec_witness :
    collideEndCount ⟨0,0,8,8⟩ true [⟨100,100,8,8⟩] = 1 :=
  (collide_with_transition_spec ⟨0,0,8,8⟩).2 [⟨100,100,8,8⟩]
    (by decide) (by decide)

/-- C2 (confirmed): for overlapping rectangles with `left_overlap` the
minimum of the four overlap magnitudes and `other.dx > 0`, `pushback_entity`
with horizontal pushback enabled (both horizontal flags at their True
defaults) sets `other.x` to `this.x - other.w` and `other.dx` to
`-horz_pushback`. -/
theorem pushback_left_min_spec (self : Rect) (o : MovState) (c : PushConfig)
    (hov : rectOverlap self ⟨o.x, o.y, o.w, o.h⟩ = true)
    (h1 : left_overlap self o ≤ right_overlap self o)
    (h2 : left_overlap self o ≤ top_overlap self o)
    (h3 : left_overlap self o ≤ bottom_overlap self o)
    (hdx : 0 < o.dx)
    (hl : c.pushback_x_left = true) (hr : c.pushback_x_right = true) :
    (pushback_entity self o c).other.x = self.x - o.w ∧
    (pushback_entity self o c).other.dx = -c.horz_pushback := by
  have hmin : min_overlap self o = left_overlap self o := by
    unfold min_overlap
    rw [min_eq_left h1, min_eq_left h2, min_eq_left h3]
  have hpx : (c.pushback_x_right || c.pushback_x_left) = true := by
    rw [hl, Bool.or_true]
  have happ : apply_horz_pushback c o.dx = -c.horz_pushback := by
    unfold apply_horz_pushback
    rw [if_pos ⟨hl, hdx⟩]
  simp only [pushback_entity, hpx, if_pos (And.intro hmin hdx), if_pos rfl, happ]
  exact ⟨rfl, rfl⟩

/-- C2 witness: A = (0,0,8,8), B = (-6,0,8,8) moving right with dx = 1,
configured pushback 3; the resolver puts B at x = -8 with dx = -3. -/
theorem pushback_left_min_spec_witness :
    (pushback_entity ⟨0,0,8,8⟩ ⟨-6,0,8,8,1,0,false,PlayerStateKey.AIR⟩
      ⟨3, 0, true, true, true, true⟩).other.x = 0 - 8 ∧
    (pushback_entity ⟨0,0,8,8⟩ ⟨-6,0,8,8,1,0,false,PlayerStateKey.AIR⟩
      ⟨3, 0, true, true, true, true⟩).other.dx = -3 :=
  pushback_left_min_spec ⟨0,0,8,8⟩ ⟨-6,0,8,8,1,0,false,PlayerStateKey.AIR⟩
    ⟨3, 0, true, true, true, true⟩
    (by decide) (by decide) (by decide) (by decide) (by decide) rfl rfl

/-- C3 counterexample: with the flags `MovingPlatform.on_collision` actually
passes (`pushback_y_up=False, pushback_y_down=False`), a resolved top-side
contact of the Player (top overlap 2 is the unique minimum, dy = 1 > 0) fires
`on_hit_above` but does not force the Player into `GROUND` — the forced
transition sits inside the `if pushback_y:` block, refuting "regardless of
which pushback flags the caller passed". -/
theorem pushback_top_player_flags_counterexample :
    (pushback_entity ⟨0,0,8,8⟩ ⟨0,-6,8,8,0,1,true,PlayerStateKey.AIR⟩
      ⟨0, 0, true, true, false, false⟩).hit_above = true ∧
    (pushback_entity ⟨0,0,8,8⟩ ⟨0,-6,8,8,0,1,true,PlayerStateKey.AIR⟩
      ⟨0, 0, true, true, false, false⟩).other.state_key ≠ PlayerStateKey.GROUND := by
  decide

/-- C3 (amended): when `pushback_entity` resolves a top-side contact for the
Player (`top_overlap` strictly below the horizontal overlaps, at most the
bottom overlap, and `other.dy > 0`) and vertical pushback is enabled
(`pushback_y_up or pushback_y_down`), the Player's state key becomes
`GROUND` after the call. -/
theorem pushback_top_player_ground_spec (self : Rect) (o : MovState) (c : PushConfig)
    (h1 : top_overlap self o < left_overlap self o)
    (h2 : top_overlap self o < right_overlap self o)
    (h3 : top_overlap self o ≤ bottom_overlap self o)
    (hdy : 0 < o.dy) (hp : o.isPlayer = true)
    (hpy : (c.pushback_y_up || c.pushback_y_down) = true) :
    (pushback_entity self o c).other.state_key = PlayerStateKey.GROUND := by
  have hmin : min_overlap self o = top_overlap self o := by
    unfold min_overlap
    rw [min_eq_right (le_min h1.le h2.le), min_eq_left h3]
  have hb1 : ¬(min_overlap self o = left_overlap self o ∧ o.dx > 0) := by
    intro h
    rw [hmin] at h
    exact absurd h.1 (ne_of_lt h1)
  have hb2 : ¬(min_overlap self o = right_overlap self o ∧ o.dx < 0) := by
    intro h
    rw [hmin] at h
    exact absurd h.1 (ne_of_lt h2)
  have hb3 : ¬(min_overlap self o = bottom_overlap self o ∧ o.dy < 0) := by
    intro h
    exact absurd h.2 (not_lt.mpr hdy.le)
  simp only [pushback_entity, if_neg hb1, if_neg hb2, if_neg hb3,
    if_pos (And.intro hmin hdy), hpy, if_pos rfl, hp]
  simp [hp]

/-- C3 witness: Player at (0,-6,8,8) falling with dy = 1 onto A = (0,0,8,8)
with the default configuration (vertical pushback enabled) ends in the
`GROUND` state. -/
theorem pushback_top_player_ground_spec_witness :
    (pushback_entity ⟨0,0,8,8⟩ ⟨0,-6,8,8,0,1,true,PlayerStateKey.AIR⟩
      defaultPushConfig).other.state_key = PlayerStateKey.GROUND :=
  pushback_top_player_ground_spec ⟨0,0,8,8⟩ ⟨0,-6,8,8,0,1,true,PlayerStateKey.AIR⟩
    defaultPushConfig (by decide) (by decide) (by decide) (by decide) rfl rfl

/-- C6 (confirmed): when the side of strictly minimal overlap carries a
velocity-sign requirement that `other` does not satisfy, `pushback_entity`
changes nothing: `other`'s position, velocity and state are untouched and no
`on_hit*` callback fires. -/
theorem pushback_sign_gate_noop (self : Rect) (o : MovState) (c : PushConfig)
    (hcase :
      (left_overlap self o < right_overlap self o ∧
       left_overlap self o < top_overlap self o ∧
       left_overlap self o < bottom_overlap self o ∧ o.dx ≤ 0) ∨
      (right_overlap self o < left_overlap self o ∧
       right_overlap self o < top_overlap self o ∧
       right_overlap self o < bottom_overlap self o ∧ 0 ≤ o.dx) ∨
      (bottom_overlap self o < left_overlap self o ∧
       bottom_overlap self o < right_overlap self o ∧
       bottom_overlap self o < top_overlap self o ∧ 0 ≤ o.dy) ∨
      (top_overlap self o < left_overlap self o ∧
       top_overlap self o < right_overlap self o ∧
       top_overlap self o < bottom_overlap self o ∧ o.dy ≤ 0)) :
    pushback_entity self o c = ⟨o, false, false, false, false, false⟩ := by
  have hb1 : ¬(min_overlap self o = left_overlap self o ∧ o.dx > 0) := by
    simp only [min_overlap] at *
    omega
  have hb2 : ¬(min_overlap self o = right_overlap self o ∧ o.dx < 0) := by
    simp only [min_overlap] at *
    omega
  have hb3 : ¬(min_overlap self o = bottom_overlap self o ∧ o.dy < 0) := by
    simp only [min_overlap] at *
    omega
  have hb4 : ¬(min_overlap self o = top_overlap self o ∧ o.dy > 0) := by
    simp only [min_overlap] at *
    omega
  simp only [pushback_entity, if_neg hb1, if_neg hb2, if_neg hb3, if_neg hb4]

/-- C6 witness: B = (-6,0,8,8) overlapping A = (0,0,8,8) with left overlap 2
the unique minimum but dx = -1 ≤ 0: the call leaves B untouched and fires
nothing. -/
theorem pushback_sign_gate_noop_witness :
    pushback_entity ⟨0,0,8,8⟩ ⟨-6,0,8,8,-1,0,false,PlayerStateKey.AIR⟩
        defaultPushConfig =
      ⟨⟨-6,0,8,8,-1,0,false,PlayerStateKey.AIR⟩, false, false, false, false, false⟩ :=
  pushback_sign_gate_noop ⟨0,0,8,8⟩ ⟨-6,0,8,8,-1,0,false,PlayerStateKey.AIR⟩
    defaultPushConfig (Or.inl (by decide))

/-- C4 (code bug): with two adjacent dead entities, `cleanup_entities`
removes the first but skips the second — `list.remove` during `for` iteration
shifts the list under the iterator's index — so a dead entity remains in the
collection after the end-of-tick cleanup pass, contrary to the claim (and to
the function's stated purpose of pruning every dead entity). -/
theorem cleanup_entities_skips_adjacent_dead :
    cleanup_entities [⟨0, false⟩, ⟨1, false⟩] = [⟨1, false⟩] ∧
    Ent.mk 1 false ∈ cleanup_entities [⟨0, false⟩, ⟨1, false⟩] ∧
    (Ent.mk 1 false).is_alive = false := by
  decide

/-- C5 counterexample: a Coin already marked dead (is_alive = False) whose
rectangle (0,0,8,8) overlaps the Player rectangle (4,0,6,8): `collide_with`
still runs `Coin.on_collision`, incrementing the manager's coin counter from
0 to 1, appending a sparkle particle, and setting the coin's colliding flag —
not a no-op. -/
theorem dead_coin_collide_counterexample :
    (coin_collide_with ⟨⟨0,0,8,8⟩, false, false⟩ ⟨0, 0⟩ ⟨4,0,6,8⟩).2.coins = 1 ∧
    (coin_collide_with ⟨⟨0,0,8,8⟩, false, false⟩ ⟨0, 0⟩ ⟨4,0,6,8⟩).2.particles = 1 ∧
    (coin_collide_with ⟨⟨0,0,8,8⟩, false, false⟩ ⟨0, 0⟩ ⟨4,0,6,8⟩).1.is_colliding
      = true := by
  decide

/-- C5 (amended): `collide_with` performs no liveness check.  For a Coin
whose liveness flag is already false, an overlapping call still increments
the coin counter, appends a sparkle particle and sets the colliding flag; the
call is a no-op only when the rectangles do not overlap and the stored
colliding flag is clear. -/
theorem dead_coin_collide_spec (c : CoinState) (m : ManagerState) (p : Rect)
    (hdead : c.is_alive = false) :
    (rectOverlap c.rect p = true →
      (coin_collide_with c m p).2.coins = m.coins + 1 ∧
      (coin_collide_with c m p).2.particles = m.particles + 1 ∧
      (coin_collide_with c m p).1.is_colliding = true) ∧
    (rectOverlap c.rect p = false → c.is_colliding = false →
      coin_collide_with c m p = (c, m)) := by
  constructor
  · intro hov
    simp [coin_collide_with, coin_on_collision, coin_die, hov]
  · intro hov hflag
    simp [coin_collide_with, hov, hflag]

/-- C5 witness: the dead coin at (0,0,8,8) against the Player at (4,0,6,8)
(overlap) and against a far Player at (100,100,6,8) (no overlap, clear flag). -/
theorem dead_coin_collide_spec_witness :
    (coin_collide_with ⟨⟨0,0,8,8⟩, false, false⟩ ⟨5, 2⟩ ⟨4,0,6,8⟩).2.coins = 5 + 1 ∧
    coin_collide_with ⟨⟨0,0,8,8⟩, false, false⟩ ⟨5, 2⟩ ⟨100,100,6,8⟩ =
      (⟨⟨0,0,8,8⟩, false, false⟩, ⟨5, 2⟩) :=
  ⟨((dead_coin_collide_spec ⟨⟨0,0,8,8⟩, false, false⟩ ⟨5, 2⟩ ⟨4,0,6,8⟩ rfl).1
      (by decide)).1,
   (dead_coin_collide_spec ⟨⟨0,0,8,8⟩, false, false⟩ ⟨5, 2⟩ ⟨100,100,6,8⟩ rfl).2
      (by decide) rfl⟩

/-- C7 (confirmed): for a state machine whose current key is valid, assigning
`state_key` to the current key is a no-op (no hooks run, machine unchanged);
assigning a key absent from the state map raises `ValueError` leaving the
machine unchanged; and after any assignment the current key is a valid key of
the map. -/
theorem state_key_setter_spec {κ σ : Type} [DecidableEq κ]
    (m : StateMachine κ σ) (k : κ)
    (hval : (lookupKey m.state_map m.cur_key).isSome = true) :
    (k = m.cur_key → set_state_key m k = (m, none, [])) ∧
    (lookupKey m.state_map k = none →
      (set_state_key m k).1 = m ∧ (set_state_key m k).2.1 = some PyError.valueError) ∧
    (lookupKey m.state_map ((set_state_key m k).1).cur_key).isSome = true := by
  refine ⟨?_, ?_, ?_⟩
  · intro hk
    subst hk
    obtain ⟨s, hs⟩ := Option.isSome_iff_exists.mp hval
    unfold set_state_key
    rw [hs]
    simp
  · intro hnone
    unfold set_state_key
    rw [hnone]
    exact ⟨rfl, rfl⟩
  · unfold set_state_key
    cases hk : lookupKey m.state_map k with
    | none => simpa using hval
    | some st =>
      by_cases he : m.cur_key = k
      · simpa [he] using hval
      · simp [he, hk]

/-- C7 witness: the machine with map {0 ↦ 10, 1 ↦ 11} and current key 0;
assigning key 1 yields a machine whose current key is again valid. -/
theorem state_key_setter_spec_witness :
    (lookupKey ((⟨[(0, 10), (1, 11)], 0, 10⟩ : StateMachine ℕ ℕ)).state_map
      ((set_state_key (⟨[(0, 10), (1, 11)], 0, 10⟩ : StateMachine ℕ ℕ) 1).1).cur_key).isSome
      = true :=
  (state_key_setter_spec (⟨[(0, 10), (1, 11)], 0, 10⟩ : StateMachine ℕ ℕ) 1
    (by decide)).2.2

/-- C8 counterexample: with tile size 8 and the only solid tiles on grid row
3 (world y 24-31), the vertical check for an entity at y = 15 with h = 8
moving down (dy = 1) samples its bottom corners at world y = 23 — grid row 2
— and returns false, where the claim asserts true. -/
theorem vertical_tile_check_y15_counterexample :
    check_vertical_tile_collision onlyRow3Solid 0 15 1 6 8 = false := by decide

/-- C8 (amended): with the only solid tiles on grid row 3, the downward
check reports collision at y = 16 (bottom corners at world y = 24, row 3) but
not at y = 15 (bottom corners at world y = 23, row 2); moving up with
dy = -1 and top corners in row 2 (y = 16) reports no collision. -/
theorem vertical_tile_check_spec :
    check_vertical_tile_collision onlyRow3Solid 0 16 1 6 8 = true ∧
    check_vertical_tile_collision onlyRow3Solid 0 15 1 6 8 = false ∧
    check_vertical_tile_collision onlyRow3Solid 0 16 (-1) 6 8 = false := by
  decide

/-- C9 counterexample: the App's camera (viewport 256x240, offsets
-128 and -120) following a target at (100, 50): after `update` the vertical
origin is -112 = SCROLL_BORDER_Y - h, which is below 0 (outside the claimed
[0, worldExtent - viewportExtent] band) and differs from the claimed
min(0, target.y + yoff) = -70 — the second clamp line overwrites the
intermediate value. -/
theorem camera_update_y_counterexample :
    (camera_update ⟨0, 0, 256, 240, -128, -120, some (100, 50)⟩).y = -112 ∧
    ¬(0 ≤ (camera_update ⟨0, 0, 256, 240, -128, -120, some (100, 50)⟩).y) ∧
    (camera_update ⟨0, 0, 256, 240, -128, -120, some (100, 50)⟩).y
      ≠ min 0 (50 + -120) := by
  decide

/-- C9 (amended): after `Camera.update` with a non-null target (and
viewport width at most the world width), the horizontal origin is the clamp
of `target.x + xoff` into [0, SCROLL_BORDER_X - w] — within that band, and
pinned at the right boundary whenever the target is beyond it — while the
vertical origin equals `min(SCROLL_BORDER_Y - h, 0)` independently of the
target: the final clamp floors the intermediate `min(0, target.y + yoff)`
back to 0 before taking the minimum. -/
theorem camera_update_spec (c : CameraState) (tx ty : ℤ)
    (ht : c.target = some (tx, ty)) (hw : c.w ≤ SCROLL_BORDER_X) :
    (camera_update c).x = min (SCROLL_BORDER_X - c.w) (max 0 (tx + c.xoff)) ∧
    (0 ≤ (camera_update c).x ∧ (camera_update c).x ≤ SCROLL_BORDER_X - c.w) ∧
    (SCROLL_BORDER_X - c.w ≤ tx + c.xoff →
      (camera_update c).x = SCROLL_BORDER_X - c.w) ∧
    (camera_update c).y = min (SCROLL_BORDER_Y - c.h) 0 := by
  unfold camera_update
  rw [ht]
  refine ⟨rfl, ⟨?_, ?_⟩, ?_, ?_⟩
  · simp only []
    omega
  · simp only []
    omega
  · intro hbeyond
    simp only []
    omega
  · simp only []
    omega

/-- C9 witness: camera (256x240, offsets -128 and -120) with target at
(2000, 50): x pinned at 1664 = SCROLL_BORDER_X - 256 and y = min(-112, 0). -/
theorem camera_update_spec_witness :
    (camera_update ⟨0, 0, 256, 240, -128, -120, some (2000, 50)⟩).x =
      min (SCROLL_BORDER_X - 256) (max 0 (2000 + -128)) ∧
    (0 ≤ (camera_update ⟨0, 0, 256, 240, -128, -120, some (2000, 50)⟩).x ∧
      (camera_update ⟨0, 0, 256, 240, -128, -120, some (2000, 50)⟩).x
        ≤ SCROLL_BORDER_X - 256) ∧
    (SCROLL_BORDER_X - 256 ≤ 2000 + -128 →
      (camera_update ⟨0, 0, 256, 240, -128, -120, some (2000, 50)⟩).x
        = SCROLL_BORDER_X - 256) ∧
    (camera_update ⟨0, 0, 256, 240, -128, -120, some (2000, 50)⟩).y =
      min (SCROLL_BORDER_Y - 240) 0 :=
  camera_update_spec ⟨0, 0, 256, 240, -128, -120, some (2000, 50)⟩ 2000 50
    rfl (by decide)

/-- C10 (confirmed): reading the `state_key` property always raises
`AttributeError`, for every state machine in every state — the current key
is not observable through the public property. -/
theorem state_key_getter_always_raises {κ σ : Type} (m : StateMachine κ σ) :
    state_key_get m = Except.error PyError.attributeError :=
  rfl
